import Mathlib

/-!
# OFX host support: the plugin cache (`HostSupport/include/ofxhPluginCache.h`)

A shallow embedding of the classes declared in `ofxhPluginCache.h`
(`PluginDesc`, `Plugin`, `PluginBinary`, `PluginCacheSupportedApi`,
`PluginCache`) together with theorems about their inline member functions.

Conventions of the embedding.

* A C++ `int` field or argument is an `Int`; the only arithmetic the header
  performs on them is comparison, which cannot overflow.  Where the header
  narrows a `size_t` to `int` (`getNPlugins`) the narrowing is explicit
  (`toCInt`).
* `time_t` is an `Int`, `size_t` is a `Nat`.
* A pointer (`PluginBinary *`, `APICache::PluginAPICacheI *`) is a `Nat`
  address, `0` being the null pointer.
* A `std::vector<Plugin *>` / `std::list<T>` is a `List` of the pointed-to
  values, in container order.
-/

namespace OFX.Host

/-! ## PluginDesc / Plugin -/

/-- Modelled from the spec: the native `OfxPlugin` struct, whose declaration
(`ofxCore.h`) is missing.  It carries "the raw identity fields (api,
apiVersion, identifier, majorVersion, minorVersion)", the five members the
constructor `PluginDesc(OfxPlugin *)` reads, each with the type of the
`PluginDesc` member it is assigned to. -/
structure OfxPlugin where
  pluginApi : String
  apiVersion : Int
  pluginIdentifier : String
  pluginVersionMajor : Int
  pluginVersionMinor : Int
  deriving DecidableEq, Repr

/-- Class `Plugin : public PluginDesc`.  The first five fields are the
protected members of `PluginDesc`, the last two the members `Plugin` adds:
`_binary` (address of the `PluginBinary` the plugin lives in) and `_index`. -/
structure Plugin where
  _pluginApi : String
  _apiVersion : Int
  _identifier : String
  _versionMajor : Int
  _versionMinor : Int
  _binary : Nat
  _index : Int
  deriving DecidableEq, Repr

namespace Plugin

def getPluginApi (p : Plugin) : String := p._pluginApi
def getApiVersion (p : Plugin) : Int := p._apiVersion
def getIdentifier (p : Plugin) : String := p._identifier
def getVersionMajor (p : Plugin) : Int := p._versionMajor
def getVersionMinor (p : Plugin) : Int := p._versionMinor
def getBinary (p : Plugin) : Nat := p._binary
def getIndex (p : Plugin) : Int := p._index

/-- Constructor `Plugin(PluginBinary *bin, int idx, OfxPlugin *o)`:
`PluginDesc(o), _binary(bin), _index(idx)`. -/
def ofOfxPlugin (bin : Nat) (idx : Int) (o : OfxPlugin) : Plugin :=
  { _pluginApi := o.pluginApi
    _apiVersion := o.apiVersion
    _identifier := o.pluginIdentifier
    _versionMajor := o.pluginVersionMajor
    _versionMinor := o.pluginVersionMinor
    _binary := bin
    _index := idx }

/-- Constructor "construct me from the cache":
`PluginDesc(api, apiVersion, identifier, majorVersion, minorVersion),
_binary(bin), _index(idx)`. -/
def ofCache (bin : Nat) (idx : Int) (api : String) (apiVersion : Int)
    (identifier : String) (majorVersion minorVersion : Int) : Plugin :=
  { _pluginApi := api
    _apiVersion := apiVersion
    _identifier := identifier
    _versionMajor := majorVersion
    _versionMinor := minorVersion
    _binary := bin
    _index := idx }

/-- Member `bool Plugin::trumps(Plugin *other)`, statement by statement. -/
def trumps (self other : Plugin) : Bool :=
  let myMajor := self.getVersionMajor
  let theirMajor := other.getVersionMajor
  let myMinor := self.getVersionMinor
  let theirMinor := other.getVersionMinor
  if myMajor > theirMajor then
    true
  else if myMajor = theirMajor ∧ myMinor > theirMinor then
    true
  else
    false

end Plugin

/-! ## PluginCacheSupportedApi -/

/-- Struct `PluginCacheSupportedApi`; `handler` is the address of the
`APICache::PluginAPICacheI` object. -/
structure PluginCacheSupportedApi where
  api : String
  minVersion : Int
  maxVersion : Int
  handler : Nat
  deriving DecidableEq, Repr

namespace PluginCacheSupportedApi

/-- Member `bool matches(std::string _api, int _version)`. -/
def «matches» (self : PluginCacheSupportedApi) (_api : String) (_version : Int) : Bool :=
  if _api = self.api ∧ _version ≥ self.minVersion ∧ _version ≤ self.maxVersion then
    true
  else
    false

end PluginCacheSupportedApi

/-! ## The binary handle and the files it reads

`ofxhBinary.h` (class `Binary`) is not part of the sources under study; what
the header uses of it is taken from §2 and §6 of the specification. -/

/-- Modelled from the spec: the files the binary-loader collaborator sees
(`ofxhBinary.h` is missing).  "Given a file path, return (mtime, size) without
loading; separately, given a request to load, return a handle exposing an
enumeration entry point that yields a count and, per index, the raw identity
fields."  `exportsOf file = none` is a file that cannot be opened as a valid
binary (or has no enumeration entry point). -/
structure HostFiles where
  stat : String → Int × Nat
  exportsOf : String → Option (List OfxPlugin)

/-- Modelled from the spec: class `Binary` of the missing `ofxhBinary.h`, the
BinaryHandle that "reports its on-disk modification time and size, and, only
when asked, loads" the file.  `_loads` counts the load requests made through
this handle. -/
structure Binary where
  _time : Int
  _size : Nat
  _loads : Nat
  deriving DecidableEq, Repr

namespace Binary

/-- Modelled from the spec: constructor `Binary(file)`, which stats the file
("this will invoke the Binary() constructor which will stat() the file") and
loads nothing. -/
def ofFile (fs : HostFiles) (file : String) : Binary :=
  { _time := (fs.stat file).1, _size := (fs.stat file).2, _loads := 0 }

def getTime (b : Binary) : Int := b._time
def getSize (b : Binary) : Nat := b._size

/-- Modelled from the spec: a request to load the file. -/
def load (b : Binary) : Binary := { b with _loads := b._loads + 1 }

end Binary

/-! ## PluginBinary -/

/-- Conversion of a `size_t` to `int` (two's complement, 32-bit `int`), as in
`int getNPlugins() {return _plugins.size(); }`. -/
def toCInt (n : Nat) : Int := ((n : Int) + 2147483648) % 4294967296 - 2147483648

/-- Conversion of an `int` to `size_t` (64-bit), as performed on the argument
of `std::vector::operator[]` in `getPlugin`. -/
def toSizeT (i : Int) : Nat := (i % 18446744073709551616).toNat

/-- Class `PluginBinary`, one field per protected data member. -/
structure PluginBinary where
  _binary : Binary
  _filePath : String
  _bundlePath : String
  _plugins : List Plugin
  _fileModificationTime : Int
  _fileSize : Nat
  _binaryChanged : Bool
  deriving DecidableEq, Repr

namespace PluginBinary

/-- Constructor "create one from the cache":
`PluginBinary(file, bundlePath, mtime, size)`.  The member initialisers set
`_binaryChanged(false)`; the body sets it when either stat value differs. -/
def ofCache (fs : HostFiles) (file bundlePath : String) (mtime : Int) (size : Nat) :
    PluginBinary :=
  let self : PluginBinary :=
    { _binary := Binary.ofFile fs file
      _filePath := file
      _bundlePath := bundlePath
      _plugins := []
      _fileModificationTime := mtime
      _fileSize := size
      _binaryChanged := false }
  if self._fileModificationTime ≠ self._binary.getTime ∨ self._fileSize ≠ self._binary.getSize then
    { self with _binaryChanged := true }
  else
    self

def getFileModificationTime (self : PluginBinary) : Int := self._fileModificationTime
def getFileSize (self : PluginBinary) : Nat := self._fileSize
def getFilePath (self : PluginBinary) : String := self._filePath
def getBundlePath (self : PluginBinary) : String := self._bundlePath
def hasBinaryChanged (self : PluginBinary) : Bool := self._binaryChanged

/-- Member `void addPlugin(Plugin *pe) { _plugins.push_back(pe); }`. -/
def addPlugin (self : PluginBinary) (pe : Plugin) : PluginBinary :=
  { self with _plugins := self._plugins ++ [pe] }

/-- Member `int getNPlugins() {return _plugins.size(); }`. -/
def getNPlugins (self : PluginBinary) : Int := toCInt self._plugins.length

/-- Member `Plugin &getPlugin(int idx) {return *_plugins[idx];}`; `none` is an
access outside the vector (undefined behaviour in the source). -/
def getPlugin (self : PluginBinary) (idx : Int) : Option Plugin :=
  self._plugins[toSizeT idx]?

end PluginBinary

/-! ## PluginCache -/

/-- Class `PluginCache`, one field per protected data member.
`_xmlCurrentBinary` and `_xmlCurrentPlugin` are the raw pointers the header
declares. -/
structure PluginCache where
  _pluginPath : List String
  _binaries : List PluginBinary
  _plugins : List Plugin
  _knownBinFiles : Finset String
  _xmlCurrentBinary : Nat
  _xmlCurrentPlugin : Nat
  _apiHandlers : List PluginCacheSupportedApi
  deriving DecidableEq

namespace PluginCache

/-- Member `registerAPICache`:
`_apiHandlers.push_back(PluginCacheSupportedApi(api, min, max, apiCache));`. -/
def registerAPICache (self : PluginCache) (api : String) (min max : Int) (apiCache : Nat) :
    PluginCache :=
  { self with _apiHandlers := self._apiHandlers ++ [PluginCacheSupportedApi.mk api min max apiCache] }

def getPlugins (self : PluginCache) : List Plugin := self._plugins

end PluginCache

/-! ## Members declared in the header and defined elsewhere

`PluginCache::PluginCache`, `PluginCache::findApiHandler`,
`PluginBinary::loadPluginInfo`, `PluginCache::readCache`,
`PluginCache::writePluginCache` and the three element callbacks are declared
in `ofxhPluginCache.h`; their bodies are in a translation unit that is not
part of the sources under study.  They are modelled from the specification. -/

namespace PluginCache

/-- Modelled from the spec: the body of the constructor `PluginCache()` is
missing; "ctor, which inits _pluginPath to default locations and not much
else".  A fresh cache knows no binary, no plugin, no file and no handler. -/
def ctor (defaultPath : List String) : PluginCache :=
  { _pluginPath := defaultPath
    _binaries := []
    _plugins := []
    _knownBinFiles := ∅
    _xmlCurrentBinary := 0
    _xmlCurrentPlugin := 0
    _apiHandlers := [] }

/-- Modelled from the spec: the lookup loop of `findApiHandler`, whose body is
missing.  Walks the registrations in registration order and returns the
handler of the first one that `matches`; the null pointer is the not-found
signal. -/
def findApiHandlerIn : List PluginCacheSupportedApi → String → Int → Nat
  | [], _, _ => 0
  | r :: rest, api, version =>
    if r.«matches» api version then r.handler else findApiHandlerIn rest api version

/-- Modelled from the spec: `findApiHandler(const std::string &, int)`, body
missing.  "Returns the first registration whose range contains `version` for
that `api`, or a not-found signal." -/
def findApiHandler (self : PluginCache) (api : String) (version : Int) : Nat :=
  findApiHandlerIn self._apiHandlers api version

/-- Modelled from the spec: `findApiHandler(Plugin *plug)`, body missing;
"sugar for the same lookup using the plugin's own api/apiVersion". -/
def findApiHandlerOf (self : PluginCache) (plug : Plugin) : Nat :=
  self.findApiHandler plug.getPluginApi plug.getApiVersion

end PluginCache

namespace PluginBinary

/-- Modelled from the spec: the enumeration loop of `loadPluginInfo`, body
missing.  Export number `i` becomes a `Plugin` (built from the native struct)
when a registered handler recognises its (api, apiVersion); "the unrecognized
entry is skipped; it contributes no Plugin". -/
def enumerate (cache : PluginCache) (this : Nat) :
    List OfxPlugin → Nat → PluginBinary → PluginBinary
  | [], _, self => self
  | o :: rest, i, self =>
    if cache.findApiHandler o.pluginApi o.apiVersion ≠ 0 then
      enumerate cache this rest (i + 1) (self.addPlugin (Plugin.ofOfxPlugin this i o))
    else
      enumerate cache this rest (i + 1) self

/-- Modelled from the spec: `PluginBinary::loadPluginInfo(PluginCache *)`,
body missing.  Records the handle's stat (after a scan "every BinaryRecord's
stat fields equal the actual file's current stat"), asks the handle to load
the file, and populates the plugin list from its exports; "if the file cannot
be opened as a valid binary, the record holds zero plugins".  The changed flag
is "never recomputed implicitly".  `this` is the address of the record. -/
def loadPluginInfo (fs : HostFiles) (this : Nat) (self : PluginBinary) (cache : PluginCache) :
    PluginBinary :=
  let self : PluginBinary :=
    { self with
      _fileModificationTime := self._binary.getTime
      _fileSize := self._binary.getSize
      _binary := self._binary.load }
  match fs.exportsOf self._filePath with
  | none => self
  | some exports => enumerate cache this exports 0 self

/-- Constructor "which will open a library file":
`PluginBinary(file, bundlePath, cache)`, with member initialisers `_binary(file)`,
`_filePath(file)`, `_bundlePath(bundlePath)`, `_binaryChanged(false)` and body
`loadPluginInfo(cache)`.  `mtime0` and `size0` are the indeterminate values of
the two members the initialiser list leaves out. -/
def ofScan (fs : HostFiles) (this : Nat) (file bundlePath : String) (cache : PluginCache)
    (mtime0 : Int) (size0 : Nat) : PluginBinary :=
  loadPluginInfo fs this
    { _binary := Binary.ofFile fs file
      _filePath := file
      _bundlePath := bundlePath
      _plugins := []
      _fileModificationTime := mtime0
      _fileSize := size0
      _binaryChanged := false }
    cache

end PluginBinary

/-! ## The persisted cache -/

/-- Modelled from the spec: an element of the persisted representation with
the information §6 requires it to carry: "one root container of binary
entries; per binary: file path, bundle path, modification time (integer),
file size (integer); per plugin nested under its binary: API name, API version
(integer), plugin identifier, major version (integer), minor version
(integer)". -/
inductive CacheElement where
  | cache
  | binary (filePath bundlePath : String) (mtime : Int) (size : Nat)
  | plugin (api : String) (apiVersion : Int) (identifier : String) (major minor : Int)
  deriving DecidableEq, Repr

/-- Modelled from the spec: the three kinds of element of the persisted
representation. -/
inductive ElementName where
  | cache
  | binary
  | plugin
  deriving DecidableEq, Repr

/-- Modelled from the spec: what the push-style parser reports, "start/end of
elements and character data"; one constructor per callback of `PluginCache`.
The tokenizer that turns bytes into these reports is an external
collaborator. -/
inductive XmlEvent where
  | elementBegin (e : CacheElement)
  | elementChar (data : String)
  | elementEnd (name : ElementName)
  deriving DecidableEq, Repr

/-- Modelled from the spec: the transient "current binary" of a read, the
fields of an open binary element and the plugins attached to it so far. -/
structure XmlBinary where
  filePath : String
  bundlePath : String
  mtime : Int
  size : Nat
  plugins : List Plugin
  deriving DecidableEq, Repr

/-- Modelled from the spec: the transient "current plugin" of a read, the
fields of an open plugin element. -/
structure XmlPlugin where
  api : String
  apiVersion : Int
  identifier : String
  major : Int
  minor : Int
  deriving DecidableEq, Repr

/-- Modelled from the spec: the cache being read together with its transient
"current binary / current plugin" parse state. -/
structure CacheReader where
  cache : PluginCache
  currentBinary : Option XmlBinary
  currentPlugin : Option XmlPlugin

namespace PluginCache

/-- Modelled from the spec: `elementBeginCallback`, body missing.  An opening
binary element starts a new current binary, "the parse state is reset at each
top-level binary boundary"; an opening plugin element becomes the current
plugin, and one "outside any binary element" is dropped. -/
def elementBeginCallback (r : CacheReader) : CacheElement → CacheReader
  | .cache => r
  | .binary filePath bundlePath mtime size =>
    { r with
      currentBinary := some (XmlBinary.mk filePath bundlePath mtime size [])
      currentPlugin := none }
  | .plugin api apiVersion identifier major minor =>
    match r.currentBinary with
    | none => r
    | some _ => { r with currentPlugin := some (XmlPlugin.mk api apiVersion identifier major minor) }

/-- Modelled from the spec: `elementCharCallback`, body missing.  Every field
of §6 travels with its element, so character data changes nothing. -/
def elementCharCallback (r : CacheReader) (_data : String) : CacheReader := r

/-- Modelled from the spec: `elementEndCallback`, body missing.
"Materializing a BinaryRecord when a binary element closes (using the
from-cache construction path) and a Plugin when a plugin element closes,
attaching it to the current binary."  The new record joins the owned binaries;
a plugin refers to its record by the record's position among them and carries
its index in the record's plugin list. -/
def elementEndCallback (fs : HostFiles) (r : CacheReader) : ElementName → CacheReader
  | .cache => r
  | .plugin =>
    match r.currentBinary, r.currentPlugin with
    | some xb, some xp =>
      let pe := Plugin.ofCache r.cache._binaries.length xb.plugins.length
        xp.api xp.apiVersion xp.identifier xp.major xp.minor
      { r with
        currentBinary := some { xb with plugins := xb.plugins ++ [pe] }
        currentPlugin := none }
    | _, _ => { r with currentPlugin := none }
  | .binary =>
    match r.currentBinary with
    | some xb =>
      let b := xb.plugins.foldl PluginBinary.addPlugin
        (PluginBinary.ofCache fs xb.filePath xb.bundlePath xb.mtime xb.size)
      { cache := { r.cache with _binaries := r.cache._binaries ++ [b] }
        currentBinary := none
        currentPlugin := none }
    | none => { r with currentPlugin := none }

/-- Modelled from the spec: one report of the push-style parser, dispatched to
the callback it belongs to. -/
def xmlStep (fs : HostFiles) (r : CacheReader) : XmlEvent → CacheReader
  | .elementBegin e => elementBeginCallback r e
  | .elementChar data => elementCharCallback r data
  | .elementEnd name => elementEndCallback fs r name

/-- Modelled from the spec: the aggregate plugin list, "concatenating the
plugin lists of all owned BinaryRecords, in BinaryRecord insertion order, then
plugin-index order within each record". -/
def aggregate (binaries : List PluginBinary) : List Plugin :=
  binaries.flatMap (fun b => b._plugins)

/-- Modelled from the spec: the aggregate plugin list is "derived, rebuilt
after each scan/read" from the owned binaries. -/
def rebuildPlugins (self : PluginCache) : PluginCache :=
  { self with _plugins := aggregate self._binaries }

/-- Modelled from the spec: `readCache`, body missing, on the reports the
parser makes for the stream.  Runs the callbacks from an empty parse state and
rebuilds the aggregate plugin list. -/
def readCache (fs : HostFiles) (self : PluginCache) (stream : List XmlEvent) : PluginCache :=
  rebuildPlugins (stream.foldl (xmlStep fs) (CacheReader.mk self none none)).cache

/-- Modelled from the spec: what `writePluginCache` emits for one plugin, "its
api/apiVersion/identifier/majorVersion/minorVersion". -/
def writePlugin (p : Plugin) : List XmlEvent :=
  [ .elementBegin (.plugin p.getPluginApi p.getApiVersion p.getIdentifier
      p.getVersionMajor p.getVersionMinor),
    .elementEnd .plugin ]

/-- Modelled from the spec: what `writePluginCache` emits for one binary, "its
path/bundle-path/mtime/size, followed by, for every owned Plugin", the
plugin's fields, the plugins nested under their binary. -/
def writeBinary (b : PluginBinary) : List XmlEvent :=
  [.elementBegin (.binary b.getFilePath b.getBundlePath b.getFileModificationTime b.getFileSize)]
    ++ b._plugins.flatMap writePlugin ++ [.elementEnd .binary]

/-- Modelled from the spec: `writePluginCache`, body missing, as the reports a
parser makes when it reads the written stream back: one root container of
binary entries, in the order of the owned binaries. -/
def writePluginCache (self : PluginCache) : List XmlEvent :=
  [.elementBegin .cache] ++ self._binaries.flatMap writeBinary ++ [.elementEnd .cache]

end PluginCache

/-- The stat a `PluginBinary` records: (path, bundle path, mtime, size). -/
def PluginBinary.cachedStat (b : PluginBinary) : String × String × Int × Nat :=
  (b.getFilePath, b.getBundlePath, b.getFileModificationTime, b.getFileSize)

/-- The identity of a plugin: (api, apiVersion, identifier, major, minor). -/
def Plugin.identity (p : Plugin) : String × Int × String × Int × Int :=
  (p.getPluginApi, p.getApiVersion, p.getIdentifier, p.getVersionMajor, p.getVersionMinor)

/-- What the persisted cache has to reproduce of a binary: its recorded stat
and the identities of its plugins, in order. -/
def PluginBinary.cacheEntry (b : PluginBinary) :
    (String × String × Int × Nat) × List (String × Int × String × Int × Int) :=
  (b.cachedStat, b._plugins.map Plugin.identity)

end OFX.Host

/-! ## Sample values -/

namespace OFX.Host

/-- Version 1.5 of a sample plugin. -/
def samplePlugin : Plugin := Plugin.ofCache 0 0 "OfxImageEffectPluginAPI" 1 "org.example.blur" 1 5

/-- The same plugin as `samplePlugin`, version 1.5, found in another binary. -/
def samplePluginCopy : Plugin := Plugin.ofCache 1 0 "OfxImageEffectPluginAPI" 1 "org.example.blur" 1 5

/-- Files whose stat is (100, 4096) and that cannot be opened as binaries. -/
def sampleFiles : HostFiles := { stat := fun _ => (100, 4096), exportsOf := fun _ => none }

/-- A record with one plugin. -/
def sampleBinary : PluginBinary :=
  (PluginBinary.ofCache sampleFiles "/plugins/blur.ofx" "/plugins/blur.ofx.bundle" 100 4096).addPlugin
    samplePlugin

/-- A record whose plugin vector holds `INT_MAX` = 2147483647 entries. -/
def fullBinary : PluginBinary :=
  { _binary := Binary.ofFile sampleFiles "/plugins/blur.ofx"
    _filePath := "/plugins/blur.ofx"
    _bundlePath := "/plugins/blur.ofx.bundle"
    _plugins := List.replicate 2147483647 samplePlugin
    _fileModificationTime := 100
    _fileSize := 4096
    _binaryChanged := false }

/-- A record whose plugin vector holds `INT_MAX + 1` = 2147483648 entries. -/
def overfullBinary : PluginBinary :=
  { _binary := Binary.ofFile sampleFiles "/plugins/blur.ofx"
    _filePath := "/plugins/blur.ofx"
    _bundlePath := "/plugins/blur.ofx.bundle"
    _plugins := List.replicate 2147483648 samplePlugin
    _fileModificationTime := 100
    _fileSize := 4096
    _binaryChanged := false }

/-- Version 2.0 of the sample plugin. -/
def newerPlugin : Plugin := Plugin.ofCache 2 0 "OfxImageEffectPluginAPI" 1 "org.example.blur" 2 0

/-- Version 1.4 of the sample plugin. -/
def olderPlugin : Plugin := Plugin.ofCache 3 1 "OfxImageEffectPluginAPI" 1 "org.example.blur" 1 4

/-- Version 1.5 of an unrelated plugin: another api, api version, identifier,
binary and index. -/
def otherPlugin : Plugin := Plugin.ofCache 7 3 "OfxOtherPluginAPI" 2 "com.other.grade" 1 5

/-- Version 1.4 of a third plugin, unrelated to the others. -/
def otherOlderPlugin : Plugin := Plugin.ofCache 9 2 "OfxThirdPluginAPI" 5 "net.third.key" 1 4

/-! ## Auxiliary lemmas -/

theorem toCInt_of_lt (n : Nat) (h : n < 2147483648) : toCInt n = (n : Int) := by
  unfold toCInt
  omega

theorem toCInt_le (n : Nat) : toCInt n ≤ (n : Int) := by
  unfold toCInt
  omega

theorem toSizeT_of_nonneg (i : Int) (h0 : 0 ≤ i) (h1 : i < 2147483648) : toSizeT i = i.toNat := by
  unfold toSizeT
  congr 1
  omega

theorem enumerate_binaryChanged (cache : PluginCache) (this : Nat) (exports : List OfxPlugin) :
    ∀ (i : Nat) (self : PluginBinary),
      (PluginBinary.enumerate cache this exports i self)._binaryChanged = self._binaryChanged := by
  induction exports with
  | nil => intro i self; rfl
  | cons o rest ih =>
    intro i self
    unfold PluginBinary.enumerate
    split
    · rw [ih]; rfl
    · rw [ih]

theorem findApiHandlerIn_first (api : String) (version : Int) :
    ∀ regs : List PluginCacheSupportedApi,
      (∃ pre r post, regs = pre ++ r :: post ∧
        (∀ q ∈ pre, q.«matches» api version = false) ∧ r.«matches» api version = true ∧
        PluginCache.findApiHandlerIn regs api version = r.handler) ∨
      ((∀ q ∈ regs, q.«matches» api version = false) ∧
        PluginCache.findApiHandlerIn regs api version = 0) := by
  intro regs
  induction regs with
  | nil => exact Or.inr ⟨by simp, rfl⟩
  | cons r rest ih =>
    by_cases hr : r.«matches» api version = true
    · refine Or.inl ⟨[], r, rest, rfl, by simp, hr, ?_⟩
      simp [PluginCache.findApiHandlerIn, hr]
    · have hr' : r.«matches» api version = false := by simpa using hr
      rcases ih with ⟨pre, q, post, hsplit, hpre, hq, hfind⟩ | ⟨hall, hfind⟩
      · refine Or.inl ⟨r :: pre, q, post, by simp [hsplit], ?_, hq, ?_⟩
        · intro x hx
          rcases List.mem_cons.1 hx with rfl | hx
          · exact hr'
          · exact hpre x hx
        · simp [PluginCache.findApiHandlerIn, hr', hfind]
      · refine Or.inr ⟨?_, ?_⟩
        · intro x hx
          rcases List.mem_cons.1 hx with rfl | hx
          · exact hr'
          · exact hall x hx
        · simp [PluginCache.findApiHandlerIn, hr', hfind]

theorem matches_eq_false_iff (q : PluginCacheSupportedApi) (api : String) (version : Int) :
    q.«matches» api version = false ↔
      ¬ (q.api = api ∧ q.minVersion ≤ version ∧ version ≤ q.maxVersion) := by
  simp only [PluginCacheSupportedApi.«matches»]
  constructor
  · intro h hc
    rw [if_pos ⟨hc.1.symm, hc.2.1, hc.2.2⟩] at h
    exact Bool.noConfusion h
  · intro h
    rw [if_neg]
    rintro ⟨h1, h2, h3⟩
    exact h ⟨h1.symm, h2, h3⟩

theorem matches_eq_true_iff (q : PluginCacheSupportedApi) (api : String) (version : Int) :
    q.«matches» api version = true ↔
      (q.api = api ∧ q.minVersion ≤ version ∧ version ≤ q.maxVersion) := by
  constructor
  · intro h
    by_contra hc
    rw [(matches_eq_false_iff q api version).2 hc] at h
    exact Bool.noConfusion h
  · intro h
    by_contra hc
    have hf : q.«matches» api version = false := by simpa using hc
    exact (matches_eq_false_iff q api version).1 hf h

theorem registerAll_apiHandlers (calls : List PluginCacheSupportedApi) :
    ∀ c : PluginCache,
      (calls.foldl (fun c r => c.registerAPICache r.api r.minVersion r.maxVersion r.handler)
        c)._apiHandlers = c._apiHandlers ++ calls := by
  induction calls with
  | nil => intro c; simp
  | cons r rest ih =>
    intro c
    rw [List.foldl_cons, ih]
    simp [PluginCache.registerAPICache]

theorem foldl_addPlugin (qs : List Plugin) :
    ∀ b : PluginBinary,
      (qs.foldl PluginBinary.addPlugin b)._plugins = b._plugins ++ qs ∧
      (qs.foldl PluginBinary.addPlugin b).cachedStat = b.cachedStat ∧
      (qs.foldl PluginBinary.addPlugin b)._binary = b._binary := by
  induction qs with
  | nil => intro b; simp
  | cons q rest ih =>
    intro b
    rw [List.foldl_cons]
    obtain ⟨h1, h2, h3⟩ := ih (b.addPlugin q)
    refine ⟨?_, ?_, ?_⟩
    · rw [h1]; simp [PluginBinary.addPlugin]
    · rw [h2]; rfl
    · rw [h3]; rfl

theorem ofCache_fields (fs : HostFiles) (file bundlePath : String) (mtime : Int) (size : Nat) :
    (PluginBinary.ofCache fs file bundlePath mtime size)._plugins = [] ∧
    (PluginBinary.ofCache fs file bundlePath mtime size).cachedStat =
      (file, bundlePath, mtime, size) ∧
    (PluginBinary.ofCache fs file bundlePath mtime size)._binary._loads = 0 := by
  unfold PluginBinary.ofCache
  simp only
  split <;> exact ⟨rfl, rfl, rfl⟩

theorem foldl_writePlugin (fs : HostFiles) (ps : List Plugin) :
    ∀ (c : PluginCache) (xb : XmlBinary),
      ∃ qs : List Plugin,
        List.foldl (PluginCache.xmlStep fs) (CacheReader.mk c (some xb) none)
            (ps.flatMap PluginCache.writePlugin) =
          CacheReader.mk c (some { xb with plugins := xb.plugins ++ qs }) none ∧
        qs.map Plugin.identity = ps.map Plugin.identity := by
  induction ps with
  | nil =>
    intro c xb
    exact ⟨[], by simp, rfl⟩
  | cons p rest ih =>
    intro c xb
    obtain ⟨qs, hfold, hid⟩ := ih c
      { xb with plugins := xb.plugins ++
          [Plugin.ofCache c._binaries.length xb.plugins.length p.getPluginApi p.getApiVersion
            p.getIdentifier p.getVersionMajor p.getVersionMinor] }
    refine ⟨Plugin.ofCache c._binaries.length xb.plugins.length p.getPluginApi p.getApiVersion
      p.getIdentifier p.getVersionMajor p.getVersionMinor :: qs, ?_, ?_⟩
    · rw [List.flatMap_cons, List.foldl_append]
      simp only [PluginCache.writePlugin, List.foldl_cons, List.foldl_nil, PluginCache.xmlStep,
        PluginCache.elementBeginCallback, PluginCache.elementEndCallback]
      rw [hfold]
      simp
    · rw [List.map_cons, List.map_cons, hid]
      rfl

theorem foldl_writeBinary_one (fs : HostFiles) (b : PluginBinary) (c : PluginCache) :
    ∃ qs : List Plugin,
      List.foldl (PluginCache.xmlStep fs) (CacheReader.mk c none none)
          (PluginCache.writeBinary b) =
        CacheReader.mk
          { c with _binaries := c._binaries ++
              [qs.foldl PluginBinary.addPlugin
                (PluginBinary.ofCache fs b.getFilePath b.getBundlePath b.getFileModificationTime
                  b.getFileSize)] }
          none none ∧
      qs.map Plugin.identity = b._plugins.map Plugin.identity := by
  obtain ⟨qs, hplug, hid⟩ := foldl_writePlugin fs b._plugins c
    (XmlBinary.mk b.getFilePath b.getBundlePath b.getFileModificationTime b.getFileSize [])
  refine ⟨qs, ?_, hid⟩
  unfold PluginCache.writeBinary
  rw [List.foldl_append, List.foldl_append]
  simp only [List.foldl_cons, List.foldl_nil, PluginCache.xmlStep,
    PluginCache.elementBeginCallback]
  rw [hplug]
  simp only [PluginCache.elementEndCallback, List.nil_append]

theorem foldl_writeBinary (fs : HostFiles) (bs : List PluginBinary) :
    ∀ c : PluginCache,
      ∃ bs' : List PluginBinary,
        List.foldl (PluginCache.xmlStep fs) (CacheReader.mk c none none)
            (bs.flatMap PluginCache.writeBinary) =
          CacheReader.mk { c with _binaries := c._binaries ++ bs' } none none ∧
        bs'.map PluginBinary.cacheEntry = bs.map PluginBinary.cacheEntry ∧
        ∀ b ∈ bs', b._binary._loads = 0 := by
  induction bs with
  | nil =>
    intro c
    exact ⟨[], by simp, rfl, by simp⟩
  | cons b rest ih =>
    intro c
    obtain ⟨qs, hone, hid⟩ := foldl_writeBinary_one fs b c
    obtain ⟨h1, h2, h3⟩ := foldl_addPlugin qs
      (PluginBinary.ofCache fs b.getFilePath b.getBundlePath b.getFileModificationTime
        b.getFileSize)
    obtain ⟨g1, g2, g3⟩ := ofCache_fields fs b.getFilePath b.getBundlePath
      b.getFileModificationTime b.getFileSize
    obtain ⟨bs', hfold, hentries, hloads⟩ := ih
      { c with _binaries := c._binaries ++
          [qs.foldl PluginBinary.addPlugin
            (PluginBinary.ofCache fs b.getFilePath b.getBundlePath b.getFileModificationTime
              b.getFileSize)] }
    refine ⟨qs.foldl PluginBinary.addPlugin
      (PluginBinary.ofCache fs b.getFilePath b.getBundlePath b.getFileModificationTime
        b.getFileSize) :: bs', ?_, ?_, ?_⟩
    · rw [List.flatMap_cons, List.foldl_append, hone, hfold]
      simp
    · rw [List.map_cons, List.map_cons, hentries]
      congr 1
      unfold PluginBinary.cacheEntry
      rw [h1, h2, g1, g2, List.nil_append, hid]
      rfl
    · intro x hx
      rcases List.mem_cons.1 hx with rfl | hx
      · rw [h3]; exact g3
      · exact hloads x hx

theorem xmlStep_exportsOf (fs : HostFiles) (exportsOf : String → Option (List OfxPlugin)) :
    PluginCache.xmlStep (HostFiles.mk fs.stat exportsOf) = PluginCache.xmlStep fs := by
  funext r ev
  cases ev with
  | elementBegin e => rfl
  | elementChar data => rfl
  | elementEnd name => cases name <;> rfl

theorem trumps_eq_true_iff (a b : Plugin) :
    a.trumps b = true ↔
      (b.getVersionMajor < a.getVersionMajor ∨
        (a.getVersionMajor = b.getVersionMajor ∧ b.getVersionMinor < a.getVersionMinor)) := by
  unfold Plugin.trumps
  dsimp only
  split_ifs with h1 h2
  · exact ⟨fun _ => Or.inl h1, fun _ => rfl⟩
  · exact ⟨fun _ => Or.inr h2, fun _ => rfl⟩
  · constructor
    · intro h
      exact absurd h (by simp)
    · rintro (h | h)
      · exact absurd h h1
      · exact absurd h h2

/-! ## Plugin::trumps -/

/-- C1: `a.trumps(b)` is true exactly when a's major version is strictly
greater than b's, or the major versions are equal and a's minor version is
strictly greater; in every other case it is false.  In particular 2.0 trumps
1.9, 1.5 does not trump 1.5 and 1.5 does not trump 1.6, whatever the other
fields of the two plugins. -/
theorem trumps_iff (a b : Plugin) (bin bin' : Nat) (idx idx' apiVersion apiVersion' : Int)
    (api api' identifier identifier' : String) :
    (a.trumps b = true ↔
      (a.getVersionMajor > b.getVersionMajor ∨
        (a.getVersionMajor = b.getVersionMajor ∧ a.getVersionMinor > b.getVersionMinor))) ∧
    (a.trumps b = false ↔
      ¬ (a.getVersionMajor > b.getVersionMajor ∨
        (a.getVersionMajor = b.getVersionMajor ∧ a.getVersionMinor > b.getVersionMinor))) ∧
    (Plugin.ofCache bin idx api apiVersion identifier 2 0).trumps
      (Plugin.ofCache bin' idx' api' apiVersion' identifier' 1 9) = true ∧
    (Plugin.ofCache bin idx api apiVersion identifier 1 5).trumps
      (Plugin.ofCache bin' idx' api' apiVersion' identifier' 1 5) = false ∧
    (Plugin.ofCache bin idx api apiVersion identifier 1 5).trumps
      (Plugin.ofCache bin' idx' api' apiVersion' identifier' 1 6) = false := by
  refine ⟨?_, ?_, ?_, ?_, ?_⟩
  · unfold Plugin.trumps
    by_cases h1 : a.getVersionMajor > b.getVersionMajor
    · simp [h1]
    · by_cases h2 : a.getVersionMajor = b.getVersionMajor ∧ a.getVersionMinor > b.getVersionMinor
      · simp [h1, h2]
      · simp [h1, h2]
  · unfold Plugin.trumps
    by_cases h1 : a.getVersionMajor > b.getVersionMajor
    · simp [h1]
    · by_cases h2 : a.getVersionMajor = b.getVersionMajor ∧ a.getVersionMinor > b.getVersionMinor
      · simp [h1, h2]
      · simp [h1, h2]
  · simp [Plugin.trumps, Plugin.ofCache, Plugin.getVersionMajor, Plugin.getVersionMinor]
  · simp [Plugin.trumps, Plugin.ofCache, Plugin.getVersionMajor, Plugin.getVersionMinor]
  · simp [Plugin.trumps, Plugin.ofCache, Plugin.getVersionMajor, Plugin.getVersionMinor]

/-- C5: two plugins with equal major and equal minor versions trump neither
way; hence there are plugins a, b with `a.trumps(b)` false and `b.trumps(a)`
false as well. -/
theorem trumps_equal_versions (a b : Plugin)
    (hmajor : a.getVersionMajor = b.getVersionMajor)
    (hminor : a.getVersionMinor = b.getVersionMinor) :
    a.trumps b = false ∧ b.trumps a = false ∧
      ∃ x y : Plugin, x.trumps y = false ∧ y.trumps x = false := by
  have key : ∀ x y : Plugin, x.getVersionMajor = y.getVersionMajor →
      x.getVersionMinor = y.getVersionMinor → x.trumps y = false := by
    intro x y h1 h2
    simp [Plugin.trumps, h1, h2]
  exact ⟨key a b hmajor hminor, key b a hmajor.symm hminor.symm,
    a, b, key a b hmajor hminor, key b a hmajor.symm hminor.symm⟩

/-- Witness for C5: version 1.5 against version 1.5 of the same plugin. -/
theorem trumps_equal_versions_witness :
    samplePlugin.trumps samplePluginCopy = false ∧
    samplePluginCopy.trumps samplePlugin = false ∧
      ∃ x y : Plugin, x.trumps y = false ∧ y.trumps x = false :=
  trumps_equal_versions samplePlugin samplePluginCopy rfl rfl

/-! ## PluginCacheSupportedApi::matches -/

/-- C2: `matches(qApi, qVersion)` is true exactly when `qApi` equals the
registered api and `minVersion <= qVersion <= maxVersion`, both bounds
inclusive; otherwise it is false. -/
theorem matches_iff (api : String) (minVersion maxVersion : Int) (handler : Nat)
    (qApi : String) (qVersion : Int) :
    ((PluginCacheSupportedApi.mk api minVersion maxVersion handler).«matches» qApi qVersion = true ↔
      (qApi = api ∧ minVersion ≤ qVersion ∧ qVersion ≤ maxVersion)) ∧
    ((PluginCacheSupportedApi.mk api minVersion maxVersion handler).«matches» qApi qVersion = false ↔
      ¬ (qApi = api ∧ minVersion ≤ qVersion ∧ qVersion ≤ maxVersion)) := by
  constructor
  · simp [PluginCacheSupportedApi.«matches»]
  · simp [PluginCacheSupportedApi.«matches»]

/-! ## PluginBinary: the two constructors -/

/-- C4: a `PluginBinary` constructed from the persisted cache has
`hasBinaryChanged() == true` exactly when the cached modification time differs
from the one the binary handle reports for the path or the cached size differs
from the reported size; when both are equal the flag is false. -/
theorem ofCache_hasBinaryChanged_iff (stat : String → Int × Nat)
    (exportsOf : String → Option (List OfxPlugin)) (file bundlePath : String)
    (cachedMtime : Int) (cachedSize : Nat) :
    ((Binary.ofFile (HostFiles.mk stat exportsOf) file).getTime = (stat file).1 ∧
      (Binary.ofFile (HostFiles.mk stat exportsOf) file).getSize = (stat file).2) ∧
    ((PluginBinary.ofCache (HostFiles.mk stat exportsOf) file bundlePath cachedMtime
        cachedSize).hasBinaryChanged = true ↔
      (cachedMtime ≠ (stat file).1 ∨ cachedSize ≠ (stat file).2)) ∧
    ((PluginBinary.ofCache (HostFiles.mk stat exportsOf) file bundlePath cachedMtime
        cachedSize).hasBinaryChanged = false ↔
      (cachedMtime = (stat file).1 ∧ cachedSize = (stat file).2)) := by
  refine ⟨⟨rfl, rfl⟩, ?_, ?_⟩
  · unfold PluginBinary.ofCache PluginBinary.hasBinaryChanged
    simp only [Binary.ofFile, Binary.getTime, Binary.getSize]
    split
    · next h => simpa using h
    · next h => simpa using h
  · unfold PluginBinary.ofCache PluginBinary.hasBinaryChanged
    simp only [Binary.ofFile, Binary.getTime, Binary.getSize]
    split
    · next h =>
      simp only [true_iff, Bool.true_eq_false, false_iff]
      intro hh
      rcases h with h | h
      · exact h hh.1
      · exact h hh.2
    · next h =>
      simp only [true_iff]
      constructor
      · by_contra hne; exact h (Or.inl hne)
      · by_contra hne; exact h (Or.inr hne)

/-- C8: a `PluginBinary` built by the live-scan constructor has
`hasBinaryChanged() == false` once construction completes, whatever the file's
stat, whatever the registered handlers, and whether or not the file could be
opened as a binary. -/
theorem ofScan_hasBinaryChanged (fs : HostFiles) (this : Nat) (file bundlePath : String)
    (cache : PluginCache) (mtime0 : Int) (size0 : Nat) :
    (PluginBinary.ofScan fs this file bundlePath cache mtime0 size0).hasBinaryChanged = false := by
  unfold PluginBinary.ofScan PluginBinary.loadPluginInfo PluginBinary.hasBinaryChanged
  simp only
  split
  · rfl
  · rw [enumerate_binaryChanged]

/-- C9: a `PluginBinary` constructed from the persisted cache enumerates
nothing: right after construction `getNPlugins() == 0` (the plugin vector is
empty), whether the changed flag is set or not; the binary handle has not been
asked to load, and the record does not depend on what loading the file would
export. -/
theorem ofCache_no_enumeration (fs : HostFiles) (file bundlePath : String) (mtime : Int)
    (size : Nat) (exportsOf : String → Option (List OfxPlugin)) :
    (PluginBinary.ofCache fs file bundlePath mtime size).getNPlugins = 0 ∧
    (PluginBinary.ofCache fs file bundlePath mtime size)._plugins = [] ∧
    (PluginBinary.ofCache fs file bundlePath mtime size)._binary._loads = 0 ∧
    PluginBinary.ofCache (HostFiles.mk fs.stat exportsOf) file bundlePath mtime size =
      PluginBinary.ofCache fs file bundlePath mtime size := by
  refine ⟨?_, ?_, ?_, ?_⟩
  · unfold PluginBinary.ofCache PluginBinary.getNPlugins
    simp only
    split <;> simp [toCInt]
  · unfold PluginBinary.ofCache
    simp only
    split <;> rfl
  · unfold PluginBinary.ofCache
    simp only
    split <;> rfl
  · rfl

/-! ## PluginBinary::addPlugin -/

/-- C10 as stated fails when the count leaves the range of `int`.  Adding a
plugin to a record that holds 2147483647 plugins makes `getNPlugins()` return
-2147483648, not 2147483647 + 1.  On a record that holds 2147483648 plugins
`getNPlugins()` is already -2147483648, and `getPlugin` at that index reaches
outside the vector after the call instead of returning the added plugin. -/
theorem addPlugin_count_overflow :
    fullBinary.getNPlugins = 2147483647 ∧
    (fullBinary.addPlugin samplePlugin).getNPlugins = -2147483648 ∧
    (fullBinary.addPlugin samplePlugin).getNPlugins ≠ fullBinary.getNPlugins + 1 ∧
    overfullBinary.getNPlugins = -2147483648 ∧
    (overfullBinary.addPlugin samplePluginCopy).getPlugin overfullBinary.getNPlugins = none ∧
    (overfullBinary.addPlugin samplePluginCopy).getPlugin overfullBinary.getNPlugins ≠
      some samplePluginCopy := by
  have hlen : fullBinary._plugins.length = 2147483647 := List.length_replicate _ _
  have hlen' : (fullBinary.addPlugin samplePlugin)._plugins.length = 2147483648 := by
    unfold PluginBinary.addPlugin
    rw [List.length_append, hlen]
    rfl
  have h1 : fullBinary.getNPlugins = 2147483647 := by
    unfold PluginBinary.getNPlugins
    rw [hlen]
    unfold toCInt
    omega
  have h2 : (fullBinary.addPlugin samplePlugin).getNPlugins = -2147483648 := by
    unfold PluginBinary.getNPlugins
    rw [hlen']
    unfold toCInt
    omega
  have glen : overfullBinary._plugins.length = 2147483648 := List.length_replicate _ _
  have glen' : (overfullBinary.addPlugin samplePluginCopy)._plugins.length = 2147483649 := by
    unfold PluginBinary.addPlugin
    rw [List.length_append, glen]
    rfl
  have h3 : overfullBinary.getNPlugins = -2147483648 := by
    unfold PluginBinary.getNPlugins
    rw [glen]
    unfold toCInt
    omega
  have hidx : toSizeT (-2147483648) = 18446744071562067968 := by
    unfold toSizeT
    omega
  have h4 : (overfullBinary.addPlugin samplePluginCopy).getPlugin overfullBinary.getNPlugins =
      none := by
    rw [h3]
    unfold PluginBinary.getPlugin
    rw [hidx]
    apply List.getElem?_eq_none
    rw [glen']
    omega
  refine ⟨h1, h2, ?_, h3, h4, ?_⟩
  · rw [h1, h2]
    omega
  · rw [h4]
    exact fun h => Option.noConfusion h

/-- C10 (amended): after `addPlugin(p)` the record's path, bundle path,
modification time, size and changed flag are unchanged and `getPlugin(i)` is
the same plugin as before for every index `0 <= i < n`, where
`n = getNPlugins()` before the call; when the record holds at most 2147483647
plugins before the call, `getPlugin(n)` is `p`; when it holds fewer than
2147483647 plugins, `getNPlugins() == n + 1`. -/
theorem addPlugin_spec (b : PluginBinary) (p : Plugin) :
    (b._plugins.length < 2147483647 → (b.addPlugin p).getNPlugins = b.getNPlugins + 1) ∧
    (b._plugins.length ≤ 2147483647 → (b.addPlugin p).getPlugin b.getNPlugins = some p) ∧
    (∀ i : Int, 0 ≤ i → i < b.getNPlugins →
      (b.addPlugin p).getPlugin i = b.getPlugin i ∧ (b.getPlugin i).isSome = true) ∧
    (b.addPlugin p).getFilePath = b.getFilePath ∧
    (b.addPlugin p).getBundlePath = b.getBundlePath ∧
    (b.addPlugin p).getFileModificationTime = b.getFileModificationTime ∧
    (b.addPlugin p).getFileSize = b.getFileSize ∧
    (b.addPlugin p).hasBinaryChanged = b.hasBinaryChanged := by
  refine ⟨?_, ?_, ?_, rfl, rfl, rfl, rfl, rfl⟩
  · intro h
    have hn : b.getNPlugins = (b._plugins.length : Int) := toCInt_of_lt _ (by omega)
    unfold PluginBinary.getNPlugins at hn ⊢
    rw [hn]
    simp only [PluginBinary.addPlugin, List.length_append, List.length_singleton]
    rw [toCInt_of_lt _ (by omega)]
    push_cast
    rfl
  · intro h
    have hn : b.getNPlugins = (b._plugins.length : Int) := toCInt_of_lt _ (by omega)
    rw [hn]
    unfold PluginBinary.getPlugin PluginBinary.addPlugin
    rw [toSizeT_of_nonneg _ (by omega) (by omega)]
    simp
  · intro i h0 h1
    have hle : b.getNPlugins ≤ (b._plugins.length : Int) := toCInt_le _
    have hlt : b.getNPlugins < 2147483648 := by
      unfold PluginBinary.getNPlugins toCInt
      omega
    have hi : i.toNat < b._plugins.length := by omega
    unfold PluginBinary.getPlugin PluginBinary.addPlugin
    rw [toSizeT_of_nonneg i h0 (by omega)]
    constructor
    · exact List.getElem?_append_left hi
    · simp [hi]

/-- Witness for C10: a record with one plugin receives a second one, and a
record with 2147483647 plugins still returns the added plugin at index `n`. -/
theorem addPlugin_spec_witness :
    sampleBinary._plugins.length < 2147483647 ∧
    (sampleBinary.addPlugin samplePluginCopy).getNPlugins = sampleBinary.getNPlugins + 1 ∧
    (sampleBinary.addPlugin samplePluginCopy).getPlugin sampleBinary.getNPlugins =
      some samplePluginCopy ∧
    fullBinary._plugins.length ≤ 2147483647 ∧
    (fullBinary.addPlugin samplePluginCopy).getPlugin fullBinary.getNPlugins =
      some samplePluginCopy :=
  have h : sampleBinary._plugins.length < 2147483647 := by decide
  have hfull : fullBinary._plugins.length ≤ 2147483647 :=
    le_of_eq (List.length_replicate _ _)
  ⟨h, (addPlugin_spec sampleBinary samplePluginCopy).1 h,
    (addPlugin_spec sampleBinary samplePluginCopy).2.1 (le_of_lt h), hfull,
    (addPlugin_spec fullBinary samplePluginCopy).2.1 hfull⟩

/-! ## PluginCache::registerAPICache and findApiHandler -/

/-- C6: `registerAPICache(api, min, max, handler)` leaves the handler list
equal to the previous list followed by exactly one new registration carrying
those four values, for every `min` and `max` (also `min > max` or a range that
overlaps an earlier one): earlier registrations keep their content and
position, and no other field of the cache changes. -/
theorem registerAPICache_appends (c : PluginCache) (api : String) (min max : Int)
    (handler : Nat) :
    (c.registerAPICache api min max handler)._apiHandlers =
      c._apiHandlers ++ [PluginCacheSupportedApi.mk api min max handler] ∧
    (c.registerAPICache api min max handler)._apiHandlers.length = c._apiHandlers.length + 1 ∧
    (∀ i : Nat, i < c._apiHandlers.length →
      (c.registerAPICache api min max handler)._apiHandlers[i]? = c._apiHandlers[i]?) ∧
    (c.registerAPICache api min max handler)._apiHandlers[c._apiHandlers.length]? =
      some (PluginCacheSupportedApi.mk api min max handler) ∧
    (c.registerAPICache api min max handler)._pluginPath = c._pluginPath ∧
    (c.registerAPICache api min max handler)._binaries = c._binaries ∧
    (c.registerAPICache api min max handler)._plugins = c._plugins ∧
    (c.registerAPICache api min max handler)._knownBinFiles = c._knownBinFiles ∧
    (c.registerAPICache api min max handler)._xmlCurrentBinary = c._xmlCurrentBinary ∧
    (c.registerAPICache api min max handler)._xmlCurrentPlugin = c._xmlCurrentPlugin := by
  refine ⟨rfl, ?_, ?_, ?_, rfl, rfl, rfl, rfl, rfl, rfl⟩
  · simp [PluginCache.registerAPICache]
  · intro i hi
    exact List.getElem?_append_left hi
  · simp [PluginCache.registerAPICache]

/-- C3: after any sequence of `registerAPICache` calls, `findApiHandler(api,
version)` returns the handler of the first registration, in registration
order, whose api equals the query api and whose inclusive range
`[min, max]` contains `version`, and returns the not-found signal (the null
pointer) when no registration matches.  In particular, after registering `H`
for "ImageEffect" versions 1 to 3 on an empty registry, the query
("ImageEffect", 2) returns `H` and the query ("ImageEffect", 5) returns
not-found. -/
theorem findApiHandler_first_match (c0 : PluginCache) (calls : List PluginCacheSupportedApi)
    (api : String) (version : Int) (defaultPath : List String) (H : Nat) :
    ((∃ pre r post, c0._apiHandlers ++ calls = pre ++ r :: post ∧
        (∀ q ∈ pre, ¬ (q.api = api ∧ q.minVersion ≤ version ∧ version ≤ q.maxVersion)) ∧
        (r.api = api ∧ r.minVersion ≤ version ∧ version ≤ r.maxVersion) ∧
        (calls.foldl (fun c r => c.registerAPICache r.api r.minVersion r.maxVersion r.handler)
          c0).findApiHandler api version = r.handler) ∨
      ((∀ q ∈ c0._apiHandlers ++ calls,
          ¬ (q.api = api ∧ q.minVersion ≤ version ∧ version ≤ q.maxVersion)) ∧
        (calls.foldl (fun c r => c.registerAPICache r.api r.minVersion r.maxVersion r.handler)
          c0).findApiHandler api version = 0)) ∧
    (PluginCache.ctor defaultPath)._apiHandlers = [] ∧
    ((PluginCache.ctor defaultPath).registerAPICache "ImageEffect" 1 3 H).findApiHandler
      "ImageEffect" 2 = H ∧
    ((PluginCache.ctor defaultPath).registerAPICache "ImageEffect" 1 3 H).findApiHandler
      "ImageEffect" 5 = 0 := by
  refine ⟨?_, rfl, ?_, ?_⟩
  · unfold PluginCache.findApiHandler
    rw [registerAll_apiHandlers]
    rcases findApiHandlerIn_first api version (c0._apiHandlers ++ calls) with
      ⟨pre, r, post, hsplit, hpre, hr, hfind⟩ | ⟨hall, hfind⟩
    · refine Or.inl ⟨pre, r, post, hsplit, ?_, (matches_eq_true_iff r api version).1 hr, hfind⟩
      intro q hq
      exact (matches_eq_false_iff q api version).1 (hpre q hq)
    · refine Or.inr ⟨?_, hfind⟩
      intro q hq
      exact (matches_eq_false_iff q api version).1 (hall q hq)
  · simp [PluginCache.findApiHandler, PluginCache.registerAPICache, PluginCache.ctor,
      PluginCache.findApiHandlerIn, PluginCacheSupportedApi.«matches»]
  · simp [PluginCache.findApiHandler, PluginCache.registerAPICache, PluginCache.ctor,
      PluginCache.findApiHandlerIn, PluginCacheSupportedApi.«matches»]

/-! ## The persisted cache: write, then read -/

/-- C7: for every `PluginCache` state, writing it with `writePluginCache` and
reading the output with `readCache` into a fresh `PluginCache` reproduces,
binary by binary and in the same order, the same (path, bundle path, mtime,
size) and the same (api, apiVersion, identifier, major, minor) per plugin; the
aggregate plugin list has the same identities in the same order; and the read
uses only the from-cache constructors: no binary handle is asked to load and
the result does not depend on what loading a file would export. -/
theorem readCache_writePluginCache (fs : HostFiles) (c : PluginCache)
    (defaultPath : List String) (exportsOf : String → Option (List OfxPlugin)) :
    (PluginCache.readCache fs (PluginCache.ctor defaultPath) c.writePluginCache)._binaries.map
        PluginBinary.cacheEntry = c._binaries.map PluginBinary.cacheEntry ∧
    (PluginCache.readCache fs (PluginCache.ctor defaultPath) c.writePluginCache).getPlugins.map
        Plugin.identity = (PluginCache.aggregate c._binaries).map Plugin.identity ∧
    (∀ b ∈ (PluginCache.readCache fs (PluginCache.ctor defaultPath) c.writePluginCache)._binaries,
        b._binary._loads = 0) ∧
    PluginCache.readCache (HostFiles.mk fs.stat exportsOf) (PluginCache.ctor defaultPath)
        c.writePluginCache =
      PluginCache.readCache fs (PluginCache.ctor defaultPath) c.writePluginCache := by
  obtain ⟨bs', hfold, hentries, hloads⟩ :=
    foldl_writeBinary fs c._binaries (PluginCache.ctor defaultPath)
  have hread : (PluginCache.readCache fs (PluginCache.ctor defaultPath)
      c.writePluginCache)._binaries = bs' := by
    unfold PluginCache.readCache PluginCache.rebuildPlugins PluginCache.writePluginCache
    rw [List.foldl_append, List.foldl_append]
    simp only [List.foldl_cons, List.foldl_nil, PluginCache.xmlStep,
      PluginCache.elementBeginCallback]
    rw [hfold]
    simp [PluginCache.elementEndCallback, PluginCache.ctor]
  have hagg : (PluginCache.readCache fs (PluginCache.ctor defaultPath)
      c.writePluginCache).getPlugins = PluginCache.aggregate bs' := by
    rw [← hread]
    rfl
  have hflat : ∀ xs ys : List PluginBinary,
      xs.map PluginBinary.cacheEntry = ys.map PluginBinary.cacheEntry →
      (PluginCache.aggregate xs).map Plugin.identity =
        (PluginCache.aggregate ys).map Plugin.identity := by
    intro xs
    induction xs with
    | nil =>
      intro ys h
      cases ys with
      | nil => rfl
      | cons y ys => simp at h
    | cons x xs ih =>
      intro ys h
      cases ys with
      | nil => simp at h
      | cons y ys =>
        simp only [List.map_cons, List.cons.injEq] at h
        have hx : x._plugins.map Plugin.identity = y._plugins.map Plugin.identity :=
          congrArg Prod.snd h.1
        simp only [PluginCache.aggregate, List.flatMap_cons, List.map_append]
        rw [hx]
        congr 1
        exact ih ys h.2
  refine ⟨?_, ?_, ?_, ?_⟩
  · rw [hread, hentries]
  · rw [hagg]
    exact hflat bs' c._binaries hentries
  · rw [hread]
    exact hloads
  · unfold PluginCache.readCache
    rw [xmlStep_exportsOf]

/-! ## Plugin::trumps as a relation -/

/-- C11: trichotomy of `trumps`.  For every pair of plugins a and b exactly
one of these holds: `a.trumps(b)` is true; `b.trumps(a)` is true; a and b have
equal major and equal minor versions.  In particular the two directions are
never both true, and whenever the (major, minor) pairs differ exactly one
direction trumps. -/
theorem trumps_trichotomy (a b : Plugin) :
    (a.trumps b = true ∨ b.trumps a = true ∨
      (a.getVersionMajor = b.getVersionMajor ∧ a.getVersionMinor = b.getVersionMinor)) ∧
    ¬ (a.trumps b = true ∧ b.trumps a = true) ∧
    ¬ (a.trumps b = true ∧
      (a.getVersionMajor = b.getVersionMajor ∧ a.getVersionMinor = b.getVersionMinor)) ∧
    ¬ (b.trumps a = true ∧
      (a.getVersionMajor = b.getVersionMajor ∧ a.getVersionMinor = b.getVersionMinor)) ∧
    (¬ (a.getVersionMajor = b.getVersionMajor ∧ a.getVersionMinor = b.getVersionMinor) →
      (a.trumps b = true ∧ b.trumps a = false) ∨ (a.trumps b = false ∧ b.trumps a = true)) := by
  have hab := trumps_eq_true_iff a b
  have hba := trumps_eq_true_iff b a
  refine ⟨?_, ?_, ?_, ?_, ?_⟩
  · rw [hab, hba]
    omega
  · rw [hab, hba]
    omega
  · rw [hab]
    omega
  · rw [hba]
    omega
  · intro hne
    cases hx : a.trumps b <;> cases hy : b.trumps a
    · exfalso
      have h1 : ¬ (a.trumps b = true) := by simp [hx]
      have h2 : ¬ (b.trumps a = true) := by simp [hy]
      rw [hab] at h1
      rw [hba] at h2
      omega
    · exact Or.inr ⟨rfl, rfl⟩
    · exact Or.inl ⟨rfl, rfl⟩
    · exfalso
      have h1 := hab.1 hx
      have h2 := hba.1 hy
      omega

/-- C12: `trumps` never looks at plugin identity.  When a and a' have the same
(major, minor) and b and b' have the same (major, minor),
`a.trumps(b) == a'.trumps(b')`, whatever their api, apiVersion, identifier,
owning binary and index; so a plugin can trump a plugin with a different
identifier and api. -/
theorem trumps_ignores_identity (a a' b b' : Plugin)
    (hamajor : a.getVersionMajor = a'.getVersionMajor)
    (haminor : a.getVersionMinor = a'.getVersionMinor)
    (hbmajor : b.getVersionMajor = b'.getVersionMajor)
    (hbminor : b.getVersionMinor = b'.getVersionMinor) :
    a.trumps b = a'.trumps b' ∧
      ∃ x y : Plugin, x.getIdentifier ≠ y.getIdentifier ∧ x.getPluginApi ≠ y.getPluginApi ∧
        x.trumps y = true := by
  constructor
  · unfold Plugin.trumps
    rw [hamajor, haminor, hbmajor, hbminor]
  · refine ⟨otherPlugin, olderPlugin, ?_, ?_, ?_⟩
    · decide
    · decide
    · decide

/-- Witness for C12: versions 1.5 and 1.4 of one plugin against versions 1.5
and 1.4 of two unrelated plugins. -/
theorem trumps_ignores_identity_witness :
    samplePlugin.trumps olderPlugin = otherPlugin.trumps otherOlderPlugin ∧
      ∃ x y : Plugin, x.getIdentifier ≠ y.getIdentifier ∧ x.getPluginApi ≠ y.getPluginApi ∧
        x.trumps y = true :=
  trumps_ignores_identity samplePlugin otherPlugin olderPlugin otherOlderPlugin rfl rfl rfl rfl

/-- C13: `trumps` is transitive: if `a.trumps(b)` and `b.trumps(c)` then
`a.trumps(c)`. -/
theorem trumps_trans (a b c : Plugin) (hab : a.trumps b = true) (hbc : b.trumps c = true) :
    a.trumps c = true := by
  rw [trumps_eq_true_iff] at hab hbc ⊢
  omega

/-- Witness for C13: version 2.0 trumps 1.5, 1.5 trumps 1.4, so 2.0 trumps
1.4. -/
theorem trumps_trans_witness :
    newerPlugin.trumps samplePlugin = true ∧ samplePlugin.trumps olderPlugin = true ∧
      newerPlugin.trumps olderPlugin = true :=
  have h1 : newerPlugin.trumps samplePlugin = true := by decide
  have h2 : samplePlugin.trumps olderPlugin = true := by decide
  ⟨h1, h2, trumps_trans newerPlugin samplePlugin olderPlugin h1 h2⟩

/-! ## Inverted ranges -/

/-- C14: a registration with an inverted range matches nothing.  When
`minVersion > maxVersion`, `matches(api, version)` is false for every query,
although `registerAPICache` accepts the registration and appends it to the
handler list like any other. -/
theorem inverted_range_matches_nothing (c : PluginCache) (api : String)
    (minVersion maxVersion : Int) (handler : Nat) (qApi : String) (qVersion : Int)
    (hinv : minVersion > maxVersion) :
    (PluginCacheSupportedApi.mk api minVersion maxVersion handler).«matches» qApi qVersion =
      false ∧
    (c.registerAPICache api minVersion maxVersion handler)._apiHandlers =
      c._apiHandlers ++ [PluginCacheSupportedApi.mk api minVersion maxVersion handler] := by
  refine ⟨?_, rfl⟩
  rw [matches_eq_false_iff]
  rintro ⟨_, h1, h2⟩
  dsimp only at h1 h2
  omega

/-- Witness for C14: the range 3 to 1 registered for "ImageEffect" on a fresh
cache, queried at version 2. -/
theorem inverted_range_matches_nothing_witness :
    (PluginCacheSupportedApi.mk "ImageEffect" 3 1 77).«matches» "ImageEffect" 2 = false ∧
    ((PluginCache.ctor []).registerAPICache "ImageEffect" 3 1 77)._apiHandlers =
      (PluginCache.ctor [])._apiHandlers ++ [PluginCacheSupportedApi.mk "ImageEffect" 3 1 77] :=
  inverted_range_matches_nothing (PluginCache.ctor []) "ImageEffect" 3 1 77 "ImageEffect" 2
    (by decide)

/-! ## The two Plugin constructors -/

/-- C15: the two `Plugin` construction paths agree.  For every binary, index
and five identity fields, the plugin built from a native `OfxPlugin` struct
carrying those fields and the plugin built from a cache entry with the same
fields return equal values from `getPluginApi`, `getApiVersion`,
`getIdentifier`, `getVersionMajor`, `getVersionMinor`, `getBinary` and
`getIndex`, each equal to the value passed in. -/
theorem plugin_constructors_agree (bin : Nat) (idx : Int) (api : String) (apiVersion : Int)
    (identifier : String) (major minor : Int) :
    ((Plugin.ofOfxPlugin bin idx (OfxPlugin.mk api apiVersion identifier major minor)).getPluginApi
        = api ∧
      (Plugin.ofCache bin idx api apiVersion identifier major minor).getPluginApi = api) ∧
    ((Plugin.ofOfxPlugin bin idx (OfxPlugin.mk api apiVersion identifier major minor)).getApiVersion
        = apiVersion ∧
      (Plugin.ofCache bin idx api apiVersion identifier major minor).getApiVersion = apiVersion) ∧
    ((Plugin.ofOfxPlugin bin idx (OfxPlugin.mk api apiVersion identifier major minor)).getIdentifier
        = identifier ∧
      (Plugin.ofCache bin idx api apiVersion identifier major minor).getIdentifier = identifier) ∧
    ((Plugin.ofOfxPlugin bin idx
        (OfxPlugin.mk api apiVersion identifier major minor)).getVersionMajor = major ∧
      (Plugin.ofCache bin idx api apiVersion identifier major minor).getVersionMajor = major) ∧
    ((Plugin.ofOfxPlugin bin idx
        (OfxPlugin.mk api apiVersion identifier major minor)).getVersionMinor = minor ∧
      (Plugin.ofCache bin idx api apiVersion identifier major minor).getVersionMinor = minor) ∧
    ((Plugin.ofOfxPlugin bin idx (OfxPlugin.mk api apiVersion identifier major minor)).getBinary
        = bin ∧
      (Plugin.ofCache bin idx api apiVersion identifier major minor).getBinary = bin) ∧
    ((Plugin.ofOfxPlugin bin idx (OfxPlugin.mk api apiVersion identifier major minor)).getIndex
        = idx ∧
      (Plugin.ofCache bin idx api apiVersion identifier major minor).getIndex = idx) ∧
    Plugin.ofOfxPlugin bin idx (OfxPlugin.mk api apiVersion identifier major minor) =
      Plugin.ofCache bin idx api apiVersion identifier major minor := by
  refine ⟨⟨?_, ?_⟩, ⟨?_, ?_⟩, ⟨?_, ?_⟩, ⟨?_, ?_⟩, ⟨?_, ?_⟩, ⟨?_, ?_⟩, ⟨?_, ?_⟩, ?_⟩
  all_goals
    simp only [Plugin.ofOfxPlugin, Plugin.ofCache, Plugin.getPluginApi, Plugin.getApiVersion,
      Plugin.getIdentifier, Plugin.getVersionMajor, Plugin.getVersionMinor, Plugin.getBinary,
      Plugin.getIndex]

end OFX.Host
